import Mathlib

/-!
Shallow embedding of the four-way traffic-intersection simulation
(source files `new.py` and `src/app.py`, which share the same core logic
and differ only in geometry constants).  Four cardinal roads each hold an
arrival-ordered queue of vehicles; a controller picks the green road
(emergency priority first, then congestion) on a timer, and vehicles
advance and are removed once strictly past the intersection centre.
Rendering, images and fonts are out of scope; wall-clock readings are
modelled as integer timestamps and random draws as explicit inputs, per
the spec's monotonic-clock modelling note.
-/

namespace Traffic

/-- The four fixed cardinal roads, the keys of `traffic_queues`. -/
inductive Road
  | North
  | South
  | East
  | West
deriving DecidableEq, Repr

open Road

/-- The `roads` list: Python dict insertion order of `traffic_queues`,
namely North, South, East, West. -/
def roadOrder : List Road := [North, South, East, West]

/-- Position of a road in the fixed ordering. -/
def roadIdx : Road → Nat
  | North => 0
  | South => 1
  | East => 2
  | West => 3

/-- One vehicle: 2D position, immutable road and emergency flag, and the
cosmetic `flash_timer` counter.  The `image` attribute only mirrors
`is_emergency` and `flash_timer` for drawing and is not modelled. -/
structure Vehicle where
  x : Int
  y : Int
  road : Road
  is_emergency : Bool
  flash_timer : Nat
deriving DecidableEq, Repr

/-- The constants that differ between the two copies of the program:
`new.py` is 800x600 with road width 120 and `flash_timer` starting at 0;
`src/app.py` is 900x600 with road width 100 and `flash_timer` starting
at 1.  All other logic is identical. -/
structure Config where
  WIDTH : Int
  HEIGHT : Int
  ROAD_WIDTH : Int
  FLASH_INIT : Nat
deriving DecidableEq, Repr

/-- Geometry of `new.py`. -/
def cfgNew : Config := { WIDTH := 800, HEIGHT := 600, ROAD_WIDTH := 120, FLASH_INIT := 0 }

/-- Geometry of `src/app.py`. -/
def cfgApp : Config := { WIDTH := 900, HEIGHT := 600, ROAD_WIDTH := 100, FLASH_INIT := 1 }

/-- `GREEN_LIGHT_DURATION` (seconds, modelled as an integer timestamp delta). -/
def GREEN_LIGHT_DURATION : Int := 3

/-- `MAX_VEHICLES`. -/
def MAX_VEHICLES : Nat := 10

/-- `Vehicle.move(current_green_road)`: the vehicle advances iff its road
has the green light or it is an emergency vehicle; speed is 4 when
emergency, else 2; North increases `y`, South decreases `y`, East
decreases `x`, West increases `x`.  An emergency vehicle additionally
advances `flash_timer` each tick it moves (the image flip this drives is
presentational and not modelled). -/
def move (current_green_road : Road) (v : Vehicle) : Vehicle :=
  let speed : Int := if v.is_emergency then 4 else 2
  if v.road = current_green_road ∨ v.is_emergency = true then
    let moved : Vehicle :=
      match v.road with
      | North => { v with y := v.y + speed }
      | South => { v with y := v.y - speed }
      | East => { v with x := v.x - speed }
      | West => { v with x := v.x + speed }
    if v.is_emergency then { moved with flash_timer := moved.flash_timer + 1 } else moved
  else v

/-- The four per-road queues (`traffic_queues`), arrival order preserved. -/
structure Queues where
  north : List Vehicle
  south : List Vehicle
  east : List Vehicle
  west : List Vehicle
deriving DecidableEq, Repr

/-- Look up one road's queue. -/
def Queues.get (q : Queues) : Road → List Vehicle
  | North => q.north
  | South => q.south
  | East => q.east
  | West => q.west

/-- Replace one road's queue. -/
def Queues.set (q : Queues) : Road → List Vehicle → Queues
  | North, vs => { q with north := vs }
  | South, vs => { q with south := vs }
  | East, vs => { q with east := vs }
  | West, vs => { q with west := vs }

/-- `total_vehicle_count()`: sum of the four queue lengths. -/
def total_vehicle_count (q : Queues) : Nat :=
  q.north.length + q.south.length + q.east.length + q.west.length

/-- `any(vehicle.is_emergency for vehicle in vehicles)`. -/
def hasEmergency (vs : List Vehicle) : Bool :=
  vs.any (fun v => v.is_emergency)

/-- Stable descending insertion, embedding one step of Python's
`sorted(road_vehicle_counts, key=road_vehicle_counts.get, reverse=True)`:
the new road is placed after every already-placed road whose count is at
least as large, because Python's sort is stable and keeps dictionary
order between equal counts. -/
def insertByCountDesc (count : Road → Nat) (r : Road) : List Road → List Road
  | [] => [r]
  | s :: ss => if count s < count r then r :: s :: ss else s :: insertByCountDesc count r ss

/-- The full stable descending sort of the road list by queue count. -/
def sortByCountDesc (count : Road → Nat) (rs : List Road) : List Road :=
  rs.foldl (fun acc r => insertByCountDesc count r acc) []

/-- `update_traffic_lights()`: return the first road in dictionary order
whose queue holds an emergency vehicle; otherwise `sorted_roads[0]`, the
head of the stable descending sort of the per-road counts.  The `none`
case corresponds to Python's `sorted_roads[0]` raising on an empty list,
which never happens (the road list always has four entries). -/
def update_traffic_lights (q : Queues) : Option Road :=
  match roadOrder.find? (fun r => hasEmergency (q.get r)) with
  | some r => some r
  | none => (sortByCountDesc (fun r => (q.get r).length) roadOrder).head?

/-- Total wrapper around `update_traffic_lights` used by the main loop;
the default branch is never taken (see the totality theorem). -/
def select_green_road (q : Queues) : Road :=
  (update_traffic_lights q).getD North

/-- The strict crossing test of `update_and_draw_vehicles`: strictly past
the centre of the screen in the road's direction of travel. -/
def crossed (cfg : Config) (road : Road) (v : Vehicle) : Bool :=
  match road with
  | North => decide (cfg.HEIGHT / 2 < v.y)
  | South => decide (v.y < cfg.HEIGHT / 2)
  | East => decide (v.x < cfg.WIDTH / 2)
  | West => decide (cfg.WIDTH / 2 < v.x)

/-- One road's pass of `update_and_draw_vehicles`: the Python loop runs
over a copy of the queue, moves every vehicle exactly once, and removes
from the live queue each vehicle found past the threshold.  Python's
`list.remove` matches the vehicle object by identity and each object
occurs once, so the result is the once-moved list with crossed vehicles
filtered out, order preserved. -/
def updateQueue (cfg : Config) (current_green_road : Road) (road : Road)
    (vs : List Vehicle) : List Vehicle :=
  (vs.map (move current_green_road)).filter (fun v => !(crossed cfg road v))

/-- `update_and_draw_vehicles(current_green_road)` over all four queues
(drawing is presentational and not modelled). -/
def update_and_draw_vehicles (cfg : Config) (current_green_road : Road) (q : Queues) : Queues :=
  { north := updateQueue cfg current_green_road North q.north,
    south := updateQueue cfg current_green_road South q.south,
    east := updateQueue cfg current_green_road East q.east,
    west := updateQueue cfg current_green_road West q.west }

/-- Entry coordinates assigned by `spawn_vehicle` for each valid road. -/
def spawnPos (cfg : Config) : Road → Int × Int
  | North => (cfg.WIDTH / 2 - cfg.ROAD_WIDTH / 4, 0)
  | South => (cfg.WIDTH / 2 + cfg.ROAD_WIDTH / 4, cfg.HEIGHT)
  | East => (cfg.WIDTH, cfg.HEIGHT / 2 + cfg.ROAD_WIDTH / 4)
  | West => (0, cfg.HEIGHT / 2 - cfg.ROAD_WIDTH / 4)

/-- `spawn_vehicle(road, is_emergency)` for a valid road: append a fresh
vehicle at the road's entry coordinate to the tail of that road's queue. -/
def spawn_vehicle (cfg : Config) (road : Road) (is_emergency : Bool) (q : Queues) : Queues :=
  let p := spawnPos cfg road
  q.set road (q.get road ++
    [{ x := p.1, y := p.2, road := road, is_emergency := is_emergency,
       flash_timer := cfg.FLASH_INIT }])

/-- `spawn_vehicle` at its string boundary, mirroring the if/elif chain on
the road name.  When the name matches none of the four roads the local
coordinates are never bound, so constructing the `Vehicle` raises an
unbound-local error before any queue is touched; that failure is modelled
as `none`. -/
def spawn_vehicle_checked (cfg : Config) (road : String) (is_emergency : Bool)
    (q : Queues) : Option Queues :=
  if road = "North" then some (spawn_vehicle cfg North is_emergency q)
  else if road = "South" then some (spawn_vehicle cfg South is_emergency q)
  else if road = "East" then some (spawn_vehicle cfg East is_emergency q)
  else if road = "West" then some (spawn_vehicle cfg West is_emergency q)
  else none

/-- Green-phase state: the currently green road and the last switch time. -/
structure PhaseState where
  current_green_road : Road
  time_last_switch : Int
deriving DecidableEq, Repr

/-- The phase-switch step of the main loop: when the green duration has
elapsed, set the green road to the controller's selection over the current
queues and reset the switch timestamp to `now`; otherwise change nothing.
`main` reads `time.time()` twice in one iteration; both reads are
modelled as the same tick timestamp `now`. -/
def advancePhase (q : Queues) (ps : PhaseState) (now : Int) : PhaseState :=
  if GREEN_LIGHT_DURATION ≤ now - ps.time_last_switch then
    { current_green_road := select_green_road q, time_last_switch := now }
  else ps

/-- The simulation state carried across main-loop iterations. -/
structure SimState where
  queues : Queues
  phase : PhaseState
deriving DecidableEq, Repr

/-- External inputs of one loop iteration: the tick timestamp, whether the
0.5 s spawn timer has elapsed, the random road and emergency draw for the
timer spawn, and the directional emergency-spawn key presses delivered by
the event queue this iteration. -/
structure TickInput where
  now : Int
  spawn_timer_due : Bool
  spawn_road : Road
  spawn_emergency : Bool
  key_spawns : List Road
deriving DecidableEq, Repr

/-- The random timer-spawn gate of the main loop: spawn only when the
spawn timer is due and `total_vehicle_count() < MAX_VEHICLES`. -/
def timerSpawnStep (cfg : Config) (inp : TickInput) (q : Queues) : Queues :=
  if inp.spawn_timer_due = true ∧ total_vehicle_count q < MAX_VEHICLES then
    spawn_vehicle cfg inp.spawn_road inp.spawn_emergency q
  else q

/-- The keyboard handler of the main loop: each arrow key spawns an
emergency vehicle on its road, with no vehicle-count check. -/
def keySpawnStep (cfg : Config) (inp : TickInput) (q : Queues) : Queues :=
  inp.key_spawns.foldl (fun acc r => spawn_vehicle cfg r true acc) q

/-- One iteration of the main loop in the source's order: move and remove
vehicles under the previous green road, then the timed phase switch over
the updated queues, then the throttled timer spawn, then the unthrottled
keyboard emergency spawns.  Drawing and the on-screen count display read
state but change nothing. -/
def tick (cfg : Config) (s : SimState) (inp : TickInput) : SimState :=
  let q1 := update_and_draw_vehicles cfg s.phase.current_green_road s.queues
  let ps2 := advancePhase q1 s.phase inp.now
  let q2 := timerSpawnStep cfg inp q1
  let q3 := keySpawnStep cfg inp q2
  { queues := q3, phase := ps2 }

/-- The per-tick operation order stated by the spec — phase switch first,
then movement and removal under the possibly new green road, then the
spawn steps — written as a definition only to compare with `tick`. -/
def specTick (cfg : Config) (s : SimState) (inp : TickInput) : SimState :=
  let ps1 := advancePhase s.queues s.phase inp.now
  let q1 := update_and_draw_vehicles cfg ps1.current_green_road s.queues
  let q2 := timerSpawnStep cfg inp q1
  let q3 := keySpawnStep cfg inp q2
  { queues := q3, phase := ps1 }

/-- `n` successive calls of `Vehicle.move` with the same green road. -/
def iterMove (g : Road) (n : Nat) (v : Vehicle) : Vehicle :=
  (move g)^[n] v

/-- The vehicle's travel coordinate sits exactly on its road's crossing
threshold (the coordinate compared strictly by `crossed`). -/
def atThreshold (cfg : Config) (road : Road) (v : Vehicle) : Bool :=
  match road with
  | North => decide (v.y = cfg.HEIGHT / 2)
  | South => decide (v.y = cfg.HEIGHT / 2)
  | East => decide (v.x = cfg.WIDTH / 2)
  | West => decide (v.x = cfg.WIDTH / 2)

/-- The vehicle `spawn_vehicle` creates in the 800x600 configuration. -/
def spawnedNew (r : Road) (e : Bool) : Vehicle :=
  ⟨(spawnPos cfgNew r).1, (spawnPos cfgNew r).2, r, e, cfgNew.FLASH_INIT⟩

/-- After `k` moves under a green light for its own road, the vehicle sits
exactly on the threshold, is not yet removable, and is past the threshold
one move later. -/
def landsExactly (cfg : Config) (r : Road) (v : Vehicle) (k : Nat) : Bool :=
  atThreshold cfg r (iterMove r k v) && !(crossed cfg r (iterMove r k v)) &&
    crossed cfg r (iterMove r (k + 1) v)

/-- Empty intersection. -/
def qEmpty : Queues := ⟨[], [], [], []⟩

/-- A parked ordinary vehicle at North's entry point (800x600 geometry). -/
def vPlainN : Vehicle := ⟨370, 0, North, false, 0⟩

/-- Emergencies on South and West, nothing else. -/
def qEmergSW : Queues := ⟨[], [⟨430, 600, South, true, 0⟩], [], [⟨0, 270, West, true, 0⟩]⟩

/-- One ordinary vehicle on North, three on South, no emergencies. -/
def qCong : Queues :=
  ⟨[vPlainN], [⟨430, 600, South, false, 0⟩, ⟨430, 598, South, false, 0⟩,
    ⟨430, 596, South, false, 0⟩], [], []⟩

/-- An ordinary North vehicle one step short of the crossing threshold. -/
def vCross : Vehicle := ⟨370, 299, North, false, 0⟩

/-- A queue state holding only `vCross`. -/
def qC4 : Queues := ⟨[vCross], [], [], []⟩

/-- A full intersection: ten vehicles queued on North. -/
def q10 : Queues := ⟨List.replicate 10 vPlainN, [], [], []⟩

/-- Simulation state at the vehicle ceiling, South green, timer fresh. -/
def s10 : SimState := ⟨q10, ⟨South, 0⟩⟩

/-- Tick input delivering one directional emergency-spawn key press for
North, with the random spawn timer not due. -/
def inpKey : TickInput := ⟨0, false, North, false, [North]⟩

/-- One ordinary vehicle waiting on a red North light, with the phase
switch due this tick. -/
def s8 : SimState := ⟨⟨[vPlainN], [], [], []⟩, ⟨South, 0⟩⟩

/-- Tick input for `s8`: timestamp 3 (switch due), no spawns. -/
def inp8 : TickInput := ⟨3, false, North, false, []⟩

/-- Tick input for `s8` delivering one East emergency-spawn key press,
with the random spawn timer not due. -/
def inp8k : TickInput := ⟨3, false, North, false, [East]⟩

/-- The West emergency vehicle `spawn_vehicle` creates in the 900x600
configuration: x = 0, y = 275, flash counter starting at 1. -/
def vWestEmApp : Vehicle := ⟨0, 275, West, true, 1⟩

/-- A 900x600 intersection holding only that West emergency vehicle. -/
def qWestApp : Queues := spawn_vehicle cfgApp West true qEmpty

/-- One movement-and-removal pass in the 900x600 configuration with North
green (the emergency vehicle moves regardless). -/
def stepApp (q : Queues) : Queues := update_and_draw_vehicles cfgApp North q

/-! ### Helper lemmas -/

/-- The head of the stable descending sort of the four roads is the first
road in dictionary order attaining the maximal count. -/
theorem sortByCountDesc_head_spec (count : Road → Nat) :
    ∃ r, (sortByCountDesc count roadOrder).head? = some r ∧
      (∀ s, count s ≤ count r) ∧
      (∀ s, roadIdx s < roadIdx r → count s < count r) := by
  simp only [sortByCountDesc, roadOrder, List.foldl, insertByCountDesc]
  repeat' first
    | split
    | simp only [insertByCountDesc]
  all_goals refine ⟨_, rfl, ?_, ?_⟩ <;> intro s <;> cases s <;>
    first
      | omega
      | (simp only [roadIdx]; omega)

/-- `move` never changes a vehicle's road. -/
theorem move_road (g : Road) (v : Vehicle) : (move g v).road = v.road := by
  rcases v with ⟨x, y, r, e, t⟩
  simp only [move]
  split
  · cases r <;> cases e <;> rfl
  · rfl

/-- `move` never changes a vehicle's emergency flag. -/
theorem move_emergency (g : Road) (v : Vehicle) :
    (move g v).is_emergency = v.is_emergency := by
  rcases v with ⟨x, y, r, e, t⟩
  simp only [move]
  split
  · cases r <;> cases e <;> rfl
  · rfl

/-- Filtering keeps every occurrence of an element the filter accepts. -/
theorem count_filter_of_pos {α : Type} [DecidableEq α] (p : α → Bool) (v : α)
    (hp : p v = true) (l : List α) : (l.filter p).count v = l.count v := by
  induction l with
  | nil => rfl
  | cons a l ih =>
    rcases ha : p a with _ | _
    · have hav : ¬(a = v) := fun heq => by rw [heq, hp] at ha; cases ha
      simp [List.filter_cons, ha, List.count_cons, ih, hav]
    · simp [List.filter_cons, ha, List.count_cons, ih]

/-- Filtering removes every occurrence of an element the filter rejects. -/
theorem count_filter_of_neg {α : Type} [DecidableEq α] (p : α → Bool) (v : α)
    (hp : p v = false) (l : List α) : (l.filter p).count v = 0 := by
  rw [List.count_eq_zero]
  intro hmem
  rw [List.mem_filter, hp] at hmem
  cases hmem.2

/-- Reading one road out of the post-movement queues. -/
theorem get_update_and_draw (cfg : Config) (g r : Road) (q : Queues) :
    (update_and_draw_vehicles cfg g q).get r = updateQueue cfg g r (q.get r) := by
  cases r <;> rfl

/-- `spawn_vehicle` appends the freshly built vehicle, still at its entry
coordinate, to the tail of its own road's queue. -/
theorem spawn_get_same (cfg : Config) (r : Road) (e : Bool) (q : Queues) :
    (spawn_vehicle cfg r e q).get r =
      q.get r ++ [⟨(spawnPos cfg r).1, (spawnPos cfg r).2, r, e, cfg.FLASH_INIT⟩] := by
  cases r <;> rfl

/-- `spawn_vehicle` grows the total count by exactly one. -/
theorem total_spawn (cfg : Config) (r : Road) (e : Bool) (q : Queues) :
    total_vehicle_count (spawn_vehicle cfg r e q) = total_vehicle_count q + 1 := by
  cases r <;> simp [spawn_vehicle, Queues.set, Queues.get, total_vehicle_count] <;> omega

/-! ### Claims -/

/-- C1: whenever at least one queue holds an emergency vehicle,
`update_traffic_lights` returns a road whose queue holds an emergency
vehicle, namely the first qualifying road in the fixed ordering North,
South, East, West. -/
theorem C1_emergency_override (q : Queues)
    (h : ∃ r, hasEmergency (q.get r) = true) :
    ∃ r, update_traffic_lights q = some r ∧ hasEmergency (q.get r) = true ∧
      ∀ s, roadIdx s < roadIdx r → hasEmergency (q.get s) = false := by
  by_cases hN : hasEmergency (q.get North) = true
  · exact ⟨North, by simp [update_traffic_lights, roadOrder, hN], hN,
      fun s hs => by cases s <;> simp [roadIdx] at hs⟩
  · replace hN : hasEmergency (q.get North) = false := by simpa using hN
    by_cases hS : hasEmergency (q.get South) = true
    · refine ⟨South, by simp [update_traffic_lights, roadOrder, hN, hS], hS, fun s hs => ?_⟩
      cases s <;> simp [roadIdx] at hs <;> exact hN
    · replace hS : hasEmergency (q.get South) = false := by simpa using hS
      by_cases hE : hasEmergency (q.get East) = true
      · refine ⟨East, by simp [update_traffic_lights, roadOrder, hN, hS, hE], hE, fun s hs => ?_⟩
        cases s <;> simp [roadIdx] at hs <;> first | exact hN | exact hS
      · replace hE : hasEmergency (q.get East) = false := by simpa using hE
        by_cases hW : hasEmergency (q.get West) = true
        · refine ⟨West, by simp [update_traffic_lights, roadOrder, hN, hS, hE, hW], hW,
            fun s hs => ?_⟩
          cases s <;> simp [roadIdx] at hs <;> first | exact hN | exact hS | exact hE
        · exfalso
          obtain ⟨r, hr⟩ := h
          cases r <;> simp_all

/-- C2: one call of `Vehicle.move` changes the position iff the vehicle's
road has the green light or it is an emergency vehicle; a moving vehicle
advances by exactly 4 units if emergency and exactly 2 otherwise, along
its road's fixed axis and sign (North: `y` increases, South: `y`
decreases, East: `x` decreases, West: `x` increases); otherwise the
vehicle is unchanged. -/
theorem C2_move_gate_speed (g : Road) (v : Vehicle) :
    (((move g v).x ≠ v.x ∨ (move g v).y ≠ v.y) ↔ (v.road = g ∨ v.is_emergency = true)) ∧
    (v.road = g ∨ v.is_emergency = true →
      ((v.road = North →
          (move g v).x = v.x ∧ (move g v).y = v.y + (if v.is_emergency then 4 else 2)) ∧
       (v.road = South →
          (move g v).x = v.x ∧ (move g v).y = v.y - (if v.is_emergency then 4 else 2)) ∧
       (v.road = East →
          (move g v).x = v.x - (if v.is_emergency then 4 else 2) ∧ (move g v).y = v.y) ∧
       (v.road = West →
          (move g v).x = v.x + (if v.is_emergency then 4 else 2) ∧ (move g v).y = v.y))) ∧
    (¬(v.road = g ∨ v.is_emergency = true) → move g v = v) := by
  rcases v with ⟨x, y, r, e, t⟩
  by_cases hg : r = g
  · subst hg
    cases r <;> cases e <;> simp [move] <;> omega
  · cases r <;> cases e <;> simp [move, hg] <;> omega

/-- Concrete check of the movement rule: a non-emergency North vehicle on
a green North light advances `y` by exactly 2 and keeps `x`. -/
theorem C2_move_gate_speed_witness :
    (move North ⟨370, 0, North, false, 0⟩).x = 370 ∧
    (move North ⟨370, 0, North, false, 0⟩).y = 0 + 2 := by
  have h := ((C2_move_gate_speed North ⟨370, 0, North, false, 0⟩).2.1 (Or.inl rfl)).1 rfl
  simpa using h

/-- C3: with no emergency vehicle anywhere, `update_traffic_lights`
returns a road whose queue length is maximal, the first such road in the
fixed ordering North, South, East, West, and two calls on identical state
agree. -/
theorem C3_congestion_max (q : Queues)
    (h : ∀ r, hasEmergency (q.get r) = false) :
    ∃ r, update_traffic_lights q = some r ∧
      (∀ s, (q.get s).length ≤ (q.get r).length) ∧
      (∀ s, roadIdx s < roadIdx r → (q.get s).length < (q.get r).length) ∧
      (∀ q2, q2 = q → update_traffic_lights q2 = update_traffic_lights q) := by
  obtain ⟨r, hr, hmax, hfirst⟩ := sortByCountDesc_head_spec (fun s => (q.get s).length)
  refine ⟨r, ?_, hmax, hfirst, fun q2 hq2 => by rw [hq2]⟩
  have hfind : roadOrder.find? (fun s => hasEmergency (q.get s)) = none := by
    simp [roadOrder, List.find?, h]
  simp only [update_traffic_lights, hfind]
  exact hr

/-- Concrete check: with emergencies on South and West, the controller
picks South, the first qualifying road in the fixed order. -/
theorem C1_emergency_override_witness :
    update_traffic_lights qEmergSW = some South := by
  obtain ⟨r, hr, hem, hfirst⟩ := C1_emergency_override qEmergSW ⟨South, by decide⟩
  cases r
  · exact absurd hem (by decide)
  · exact hr
  · exact absurd (hfirst South (by decide)) (by decide)
  · exact absurd (hfirst South (by decide)) (by decide)

/-- Concrete check: one vehicle on North versus three on South, no
emergencies — the controller picks South. -/
theorem C3_congestion_max_witness :
    update_traffic_lights qCong = some South := by
  obtain ⟨r, hr, hmax, hfirst, -⟩ :=
    C3_congestion_max qCong (fun r => by cases r <;> decide)
  cases r
  · exact absurd (hmax South) (by decide)
  · exact hr
  · exact absurd (hmax South) (by decide)
  · exact absurd (hmax South) (by decide)

/-- C4: in one `update_and_draw_vehicles` pass, every vehicle present at
the start of the tick is moved exactly once — occurrence counts of each
moved vehicle are preserved when it has not crossed and drop to zero when
it has, and the surviving queue is a sublist of the once-moved queue, so
removal neither skips nor double-processes anything — and a vehicle that
passes its road's threshold this tick is absent from all four queues
afterwards. -/
theorem C4_move_once_remove_crossed (cfg : Config) (g : Road) (q : Queues)
    (hcons : ∀ r, ∀ v ∈ q.get r, v.road = r) :
    (∀ r v, ((update_and_draw_vehicles cfg g q).get r).count v =
       if crossed cfg r v = true then 0 else ((q.get r).map (move g)).count v) ∧
    (∀ r, List.Sublist ((update_and_draw_vehicles cfg g q).get r)
       ((q.get r).map (move g))) ∧
    (∀ r v, v ∈ q.get r → crossed cfg r (move g v) = true →
       ∀ s, move g v ∉ (update_and_draw_vehicles cfg g q).get s) := by
  refine ⟨?_, ?_, ?_⟩
  · intro r v
    rw [get_update_and_draw]
    by_cases hc : crossed cfg r v = true
    · rw [if_pos hc]
      exact count_filter_of_neg _ _ (by simp [hc]) _
    · rw [if_neg hc]
      replace hc : crossed cfg r v = false := by simpa using hc
      exact count_filter_of_pos _ _ (by simp [hc]) _
  · intro r
    rw [get_update_and_draw]
    exact List.filter_sublist _
  · intro r v hv hcross s hmem
    rw [get_update_and_draw, updateQueue, List.mem_filter] at hmem
    obtain ⟨hmem1, hmem2⟩ := hmem
    by_cases hrs : s = r
    · subst hrs
      rw [hcross] at hmem2
      cases hmem2
    · obtain ⟨w, hw, hweq⟩ := List.mem_map.mp hmem1
      have h2 : w.road = s := hcons s w hw
      have h4 : v.road = r := hcons r v hv
      refine hrs ?_
      calc s = w.road := h2.symm
        _ = (move g w).road := (move_road g w).symm
        _ = (move g v).road := by rw [hweq]
        _ = v.road := move_road g v
        _ = r := h4

/-- Concrete check: an ordinary North vehicle at y = 299 crosses the
threshold when moved under a green North light and is gone from every
queue after the pass. -/
theorem C4_move_once_remove_crossed_witness :
    move North vCross ∉ (update_and_draw_vehicles cfgNew North qC4).get North ∧
    move North vCross ∉ (update_and_draw_vehicles cfgNew North qC4).get South ∧
    move North vCross ∉ (update_and_draw_vehicles cfgNew North qC4).get East ∧
    move North vCross ∉ (update_and_draw_vehicles cfgNew North qC4).get West := by
  have h := (C4_move_once_remove_crossed cfgNew North qC4
    (fun r => by cases r <;> decide)).2.2 North vCross (by decide) (by decide)
  exact ⟨h North, h South, h East, h West⟩

/-- C5 counterexample: with the intersection already at `MAX_VEHICLES`,
one full loop iteration that receives a directional emergency-spawn key
press still appends a vehicle — the total vehicle count is not the sole
throttle, and such a spawn request is not refused. -/
theorem C5_counterexample :
    total_vehicle_count s10.queues = MAX_VEHICLES ∧
    total_vehicle_count (tick cfgNew s10 inpKey).queues = MAX_VEHICLES + 1 := by
  exact ⟨by decide, by decide⟩

/-- C5 (amended): the random timer spawn is refused as a no-op whenever
`total_vehicle_count() >= MAX_VEHICLES` and performed when the timer is
due below the ceiling, but a directional emergency-spawn key press always
appends one vehicle, regardless of the count. -/
theorem C5_amended_throttle (cfg : Config) (inp : TickInput) (q : Queues) (r : Road) :
    (MAX_VEHICLES ≤ total_vehicle_count q → timerSpawnStep cfg inp q = q) ∧
    (inp.spawn_timer_due = true → total_vehicle_count q < MAX_VEHICLES →
       timerSpawnStep cfg inp q = spawn_vehicle cfg inp.spawn_road inp.spawn_emergency q) ∧
    total_vehicle_count
        (keySpawnStep cfg ⟨inp.now, inp.spawn_timer_due, inp.spawn_road,
          inp.spawn_emergency, [r]⟩ q) =
      total_vehicle_count q + 1 := by
  refine ⟨fun h => ?_, fun h1 h2 => ?_, ?_⟩
  · rw [timerSpawnStep, if_neg]
    rintro ⟨-, h2⟩
    omega
  · rw [timerSpawnStep, if_pos ⟨h1, h2⟩]
  · exact total_spawn cfg r true q

/-- Concrete check of the amended C5 at the vehicle ceiling. -/
theorem C5_amended_throttle_witness :
    timerSpawnStep cfgNew inpKey s10.queues = s10.queues ∧
    total_vehicle_count
        (keySpawnStep cfgNew ⟨0, false, North, false, [North]⟩ s10.queues) =
      total_vehicle_count s10.queues + 1 := by
  have h := C5_amended_throttle cfgNew inpKey s10.queues North
  exact ⟨h.1 (by decide), h.2.2⟩

/-- C6: `advancePhase` replaces the green road with the controller's
selection and resets the switch timestamp exactly when the green duration
has elapsed, changes nothing otherwise, and the main-loop iteration
obtains its new phase from `advancePhase` alone. -/
theorem C6_advancePhase (q : Queues) (ps : PhaseState) (now : Int)
    (cfg : Config) (s : SimState) (inp : TickInput) :
    (GREEN_LIGHT_DURATION ≤ now - ps.time_last_switch →
       advancePhase q ps now = ⟨select_green_road q, now⟩) ∧
    (now - ps.time_last_switch < GREEN_LIGHT_DURATION →
       advancePhase q ps now = ps) ∧
    (tick cfg s inp).phase =
      advancePhase (update_and_draw_vehicles cfg s.phase.current_green_road s.queues)
        s.phase inp.now := by
  refine ⟨fun h => ?_, fun h => ?_, rfl⟩
  · rw [advancePhase, if_pos h]
  · rw [advancePhase, if_neg (by omega)]

/-- Concrete check of both branches of the phase switch. -/
theorem C6_advancePhase_witness :
    advancePhase qEmpty ⟨South, 0⟩ 3 = ⟨select_green_road qEmpty, 3⟩ ∧
    advancePhase qEmpty ⟨South, 0⟩ 1 = ⟨South, 0⟩ := by
  have h3 := C6_advancePhase qEmpty ⟨South, 0⟩ 3 cfgNew s8 inp8
  have h1 := C6_advancePhase qEmpty ⟨South, 0⟩ 1 cfgNew s8 inp8
  exact ⟨h3.1 (by decide), h1.2.1 (by decide)⟩

/-- C7: `update_traffic_lights` always selects one of the four roads
(never "no selection"), and immediately after `advancePhase` exactly one
road is the green road. -/
theorem C7_always_one_green (q : Queues) (ps : PhaseState) (now : Int) :
    (∃ r, update_traffic_lights q = some r) ∧
    (∃! r : Road, (advancePhase q ps now).current_green_road = r) := by
  constructor
  · cases hf : roadOrder.find? (fun r => hasEmergency (q.get r)) with
    | some r => exact ⟨r, by simp [update_traffic_lights, hf]⟩
    | none =>
      obtain ⟨r, hr, -, -⟩ := sortByCountDesc_head_spec (fun s => (q.get s).length)
      refine ⟨r, ?_⟩
      simp only [update_traffic_lights, hf]
      exact hr
  · exact ⟨(advancePhase q ps now).current_green_road, rfl, fun y hy => hy.symm⟩

/-- C8 counterexample: on a state whose phase switch is due and whose only
vehicle waits on a road about to turn green, running the phase switch
before movement (the order the claim states) moves the vehicle this tick,
while the source's order moves vehicles before the switch and leaves it in
place — the two tick orders produce different states. -/
theorem C8_counterexample : tick cfgNew s8 inp8 ≠ specTick cfgNew s8 inp8 := by
  decide

/-- C8 (amended): each loop iteration, for arbitrary inputs, first
advances every vehicle exactly once and removes the vehicles now past
threshold, all under the previous iteration's green road; the phase switch
is then evaluated over the post-movement queues; the spawn steps come last
— the final queues are the throttled timer spawn followed by the
unthrottled key spawns applied to the post-movement queues, and in
particular a vehicle spawned this tick ends the tick still at its entry
coordinate, unmoved (which fails for any order that spawns before
movement, since spawned emergency vehicles always move). -/
theorem C8_amended_order (cfg : Config) (s : SimState) (inp : TickInput) (r : Road) :
    (tick cfg s inp).phase =
      advancePhase (update_and_draw_vehicles cfg s.phase.current_green_road s.queues)
        s.phase inp.now ∧
    (tick cfg s inp).queues =
      keySpawnStep cfg inp (timerSpawnStep cfg inp
        (update_and_draw_vehicles cfg s.phase.current_green_road s.queues)) ∧
    (inp.key_spawns = [r] →
      ((tick cfg s inp).queues.get r).getLast? =
        some ⟨(spawnPos cfg r).1, (spawnPos cfg r).2, r, true, cfg.FLASH_INIT⟩) ∧
    (inp.spawn_timer_due = true →
      total_vehicle_count
          (update_and_draw_vehicles cfg s.phase.current_green_road s.queues) <
        MAX_VEHICLES →
      inp.key_spawns = [] →
      ((tick cfg s inp).queues.get inp.spawn_road).getLast? =
        some ⟨(spawnPos cfg inp.spawn_road).1, (spawnPos cfg inp.spawn_road).2,
          inp.spawn_road, inp.spawn_emergency, cfg.FLASH_INIT⟩) := by
  have hq : (tick cfg s inp).queues =
      keySpawnStep cfg inp (timerSpawnStep cfg inp
        (update_and_draw_vehicles cfg s.phase.current_green_road s.queues)) := rfl
  refine ⟨rfl, hq, fun hk => ?_, fun ht hc hk0 => ?_⟩
  · rw [hq, keySpawnStep, hk]
    simp only [List.foldl]
    rw [spawn_get_same]
    exact List.getLast?_concat _
  · rw [hq, keySpawnStep, hk0]
    simp only [List.foldl]
    rw [timerSpawnStep, if_pos ⟨ht, hc⟩, spawn_get_same]
    exact List.getLast?_concat _

/-- Concrete check of the amended C8 order on the `s8` state with one East
emergency key spawn: the phase comes from the switch over the
post-movement queues, and the key-spawned vehicle ends the tick at East's
entry coordinate, unmoved. -/
theorem C8_amended_order_witness :
    (tick cfgNew s8 inp8k).phase =
      advancePhase (update_and_draw_vehicles cfgNew s8.phase.current_green_road s8.queues)
        s8.phase inp8k.now ∧
    ((tick cfgNew s8 inp8k).queues.get East).getLast? =
      some ⟨(spawnPos cfgNew East).1, (spawnPos cfgNew East).2, East, true,
        cfgNew.FLASH_INIT⟩ := by
  have h := C8_amended_order cfgNew s8 inp8k East
  exact ⟨h.1, h.2.2.1 rfl⟩

/-- C9: a road identifier outside {North, South, East, West} makes the
spawn request fail at the boundary — the checked `spawn_vehicle` returns
`none`, and no state carrying an invalid road ever escapes, so no queue is
modified. -/
theorem C9_invalid_road (cfg : Config) (road : String) (e : Bool) (q : Queues)
    (h1 : road ≠ "North") (h2 : road ≠ "South") (h3 : road ≠ "East") (h4 : road ≠ "West") :
    spawn_vehicle_checked cfg road e q = none ∧
    ∀ q2, spawn_vehicle_checked cfg road e q = some q2 → q2 = q := by
  have hnone : spawn_vehicle_checked cfg road e q = none := by
    simp [spawn_vehicle_checked, h1, h2, h3, h4]
  refine ⟨hnone, fun q2 hq2 => ?_⟩
  rw [hnone] at hq2
  cases hq2

/-- Concrete check: the road name "Up" is rejected with no queue change. -/
theorem C9_invalid_road_witness :
    spawn_vehicle_checked cfgNew "Up" true qEmpty = none :=
  (C9_invalid_road cfgNew "Up" true qEmpty (by decide) (by decide)
    (by decide) (by decide)).1

set_option maxRecDepth 40000 in
/-- C10 counterexample: in the 900x600 configuration a West emergency
vehicle (spawned at x = 0, speed 4, threshold x = 450) never sits exactly
on the threshold: for its whole transit its x differs from 450, it is
still short of the threshold after pass 112 (x = 448), and pass 113 jumps
it to x = 452, past the threshold, where it is removed — so not every
moving vehicle lands exactly on the threshold for one tick before
removal. -/
theorem C10_counterexample :
    (spawn_vehicle cfgApp West true qEmpty).west = [vWestEmApp] ∧
    ((List.range 114).all
      (fun k => !(atThreshold cfgApp West (iterMove North k vWestEmApp)))) = true ∧
    (stepApp^[112] qWestApp).west = [⟨448, 275, West, true, 113⟩] ∧
    (stepApp^[113] qWestApp).west = [] := by
  exact ⟨by decide, by decide, by decide, by decide⟩

set_option maxRecDepth 40000 in
/-- C10 (amended): the removal comparison is strict — a vehicle sitting
exactly on its road's threshold coordinate is not removed in that pass and
stays in its queue — and in the 800x600 configuration the spawn
coordinates and both speeds keep parity with the threshold, so every
spawned vehicle, ordinary or emergency, on every road lands exactly on the
threshold for one tick before crossing; in the 900x600 configuration
east/west emergency vehicles skip the threshold instead. -/
theorem C10_strict_threshold (cfg : Config) (g r : Road) (vs : List Vehicle)
    (v : Vehicle) (hv : v ∈ vs) (hex : atThreshold cfg r (move g v) = true) :
    crossed cfg r (move g v) = false ∧
    move g v ∈ updateQueue cfg g r vs ∧
    (landsExactly cfgNew North (spawnedNew North false) 150 = true ∧
     landsExactly cfgNew North (spawnedNew North true) 75 = true ∧
     landsExactly cfgNew South (spawnedNew South false) 150 = true ∧
     landsExactly cfgNew South (spawnedNew South true) 75 = true ∧
     landsExactly cfgNew East (spawnedNew East false) 200 = true ∧
     landsExactly cfgNew East (spawnedNew East true) 100 = true ∧
     landsExactly cfgNew West (spawnedNew West false) 200 = true ∧
     landsExactly cfgNew West (spawnedNew West true) 100 = true) := by
  have hcr : crossed cfg r (move g v) = false := by
    cases r <;>
      · simp only [atThreshold, decide_eq_true_eq] at hex
        simp only [crossed, hex]
        exact decide_eq_false (lt_irrefl _)
  refine ⟨hcr, ?_, ?_⟩
  · rw [updateQueue, List.mem_filter]
    exact ⟨List.mem_map.mpr ⟨v, hv, rfl⟩, by simp [hcr]⟩
  · exact ⟨by decide, by decide, by decide, by decide, by decide, by decide,
      by decide, by decide⟩

/-- Concrete check: a North vehicle moved onto y = 300 exactly is kept. -/
theorem C10_strict_threshold_witness :
    crossed cfgNew North (move North ⟨370, 298, North, false, 0⟩) = false ∧
    move North ⟨370, 298, North, false, 0⟩ ∈
      updateQueue cfgNew North North [⟨370, 298, North, false, 0⟩] := by
  have h := C10_strict_threshold cfgNew North North [⟨370, 298, North, false, 0⟩]
    ⟨370, 298, North, false, 0⟩ (by decide) (by decide)
  exact ⟨h.1, h.2.1⟩

end Traffic
